import Mathlib

/-!
Verification of the Bedrock Claude inference client (`main.go`).

The program is a one-shot client: it builds a `ClaudeRequest`, JSON-encodes
it, invokes a remote model, JSON-decodes the reply into a `ClaudeResponse`,
prints the first content block's text, and classifies invocation errors by
substring matching (`handleInvokeError`).

Shallow embedding choices:
- JSON is modelled at the value level (`Jsonv`), not the byte level:
  `json.Marshal` is `marshalValue ∘ toGoValue` where `GoValue` is the
  universe of Go runtime values reachable by reflection (including the
  kinds `chan`/`func` that `json.Marshal` rejects, so the encoder's error
  branch is real), and `json.Unmarshal` into each target struct is a
  `decode…` function following Go's semantics (missing key → zero value,
  wrong JSON type → error).
- `strings.Contains` is `strContains` over the character list.
- `fmt.Printf`/`fmt.Println` append one line to standard output;
  `log.Fatalf` appends one line to standard error and exits 1;
  an out-of-range slice index is a runtime panic (`ProgResult.panicked`).
-/

/-- `ClaudeTextContent` from main.go: a content block `{type, text}`. -/
structure ClaudeTextContent where
  type : String
  text : String
deriving DecidableEq, Repr

/-- `ClaudeRequestMessage` from main.go: `{role, content}`. -/
structure ClaudeRequestMessage where
  role : String
  content : List ClaudeTextContent
deriving DecidableEq, Repr

/-- `ClaudeRequest` from main.go:
`{anthropic_version, max_tokens, system, messages}`. -/
structure ClaudeRequest where
  anthropicVersion : String
  maxTokens : Int
  system : String
  messages : List ClaudeRequestMessage
deriving DecidableEq, Repr

/-- `ClaudeUsage` from main.go: `{input_tokens, output_tokens}`. -/
structure ClaudeUsage where
  inputTokens : Int
  outputTokens : Int
deriving DecidableEq, Repr

/-- `ClaudeResponse` from main.go:
`{id, type, role, content, stop_reason, stop_sequence, usage}`. -/
structure ClaudeResponse where
  id : String
  type : String
  role : String
  content : List ClaudeTextContent
  stopReason : String
  stopSequence : String
  usage : ClaudeUsage
deriving DecidableEq, Repr

/-- JSON values (the image of `json.Marshal` and the domain of
`json.Unmarshal`, modelled at the value level). -/
inductive Jsonv where
  | str (s : String)
  | num (n : Int)
  | arr (elems : List Jsonv)
  | obj (fields : List (String × Jsonv))

/-- Go runtime values as seen by `encoding/json` through reflection.
`chanv` and `funcv` stand for the kinds (`chan`, `func`) that
`json.Marshal` rejects with an `UnsupportedTypeError`; struct fields carry
their JSON tag names. -/
inductive GoValue where
  | str (s : String)
  | int (n : Int)
  | slice (elems : List GoValue)
  | structv (fields : List (String × GoValue))
  | chanv
  | funcv

mutual
/-- `json.Marshal` on a Go value: total except on the unsupported kinds. -/
def marshalValue : GoValue → Except String Jsonv
  | .str s => .ok (.str s)
  | .int n => .ok (.num n)
  | .slice xs => do
      let js ← marshalElems xs
      .ok (.arr js)
  | .structv fs => do
      let jfs ← marshalFields fs
      .ok (.obj jfs)
  | .chanv => .error "json: unsupported type: chan"
  | .funcv => .error "json: unsupported type: func"

/-- Marshal each element of a slice in order. -/
def marshalElems : List GoValue → Except String (List Jsonv)
  | [] => .ok []
  | x :: xs => do
      let j ← marshalValue x
      let js ← marshalElems xs
      .ok (j :: js)

/-- Marshal each struct field in order, keeping its tag name. -/
def marshalFields : List (String × GoValue) → Except String (List (String × Jsonv))
  | [] => .ok []
  | (k, v) :: fs => do
      let j ← marshalValue v
      let jfs ← marshalFields fs
      .ok ((k, j) :: jfs)
end

/-- Reflection of a `ClaudeTextContent` into the Go value universe,
with the JSON tag names from main.go. -/
def ClaudeTextContent.toGoValue (c : ClaudeTextContent) : GoValue :=
  .structv [("type", .str c.type), ("text", .str c.text)]

/-- Reflection of a `ClaudeRequestMessage` into the Go value universe. -/
def ClaudeRequestMessage.toGoValue (m : ClaudeRequestMessage) : GoValue :=
  .structv [("role", .str m.role),
            ("content", .slice (m.content.map ClaudeTextContent.toGoValue))]

/-- Reflection of a `ClaudeRequest` into the Go value universe. -/
def ClaudeRequest.toGoValue (r : ClaudeRequest) : GoValue :=
  .structv [("anthropic_version", .str r.anthropicVersion),
            ("max_tokens", .int r.maxTokens),
            ("system", .str r.system),
            ("messages", .slice (r.messages.map ClaudeRequestMessage.toGoValue))]

/-- Whether `needle` is an initial segment of the second list
(char-level model of `strings.HasPrefix`). -/
def listLeads : List Char → List Char → Bool
  | [], _ => true
  | _ :: _, [] => false
  | a :: as, b :: bs => a == b && listLeads as bs

/-- Whether `needle` occurs inside the second list. -/
def listWithin (needle : List Char) : List Char → Bool
  | [] => needle.isEmpty
  | b :: bs => listLeads needle (b :: bs) || listWithin needle bs

/-- `strings.Contains s sub` (argument order as in Go). ASCII patterns make
the char-level and byte-level readings coincide on valid UTF-8. -/
def strContains (s sub : String) : Bool :=
  listWithin sub.data s.data

/-- First binding of a key among an object's fields (`json.Unmarshal`
field lookup; the encoder never emits duplicate keys). -/
def lookupField : List (String × Jsonv) → String → Option Jsonv
  | [], _ => none
  | (k, v) :: fs, key => if k == key then some v else lookupField fs key

/-- Unmarshal a string-typed struct field: a missing key leaves the Go
zero value `""`; a present key must hold a JSON string. -/
def decodeStrField : Option Jsonv → Option String
  | none => some ""
  | some (.str s) => some s
  | some _ => none

/-- Unmarshal an int-typed struct field: a missing key leaves the Go
zero value `0`; a present key must hold a JSON number. -/
def decodeIntField : Option Jsonv → Option Int
  | none => some 0
  | some (.num n) => some n
  | some _ => none

/-- `json.Unmarshal` into `ClaudeTextContent`. -/
def decodeContent : Jsonv → Option ClaudeTextContent
  | .obj fs => do
      let t ← decodeStrField (lookupField fs "type")
      let x ← decodeStrField (lookupField fs "text")
      some ⟨t, x⟩
  | _ => none

/-- Unmarshal each element of a JSON array into a content block. -/
def decodeContentList : List Jsonv → Option (List ClaudeTextContent)
  | [] => some []
  | j :: js => do
      let c ← decodeContent j
      let cs ← decodeContentList js
      some (c :: cs)

/-- Unmarshal a `[]ClaudeTextContent` struct field: a missing key leaves
the zero value (nil slice, i.e. `[]`); a present key must hold an array. -/
def decodeContentsField : Option Jsonv → Option (List ClaudeTextContent)
  | none => some []
  | some (.arr js) => decodeContentList js
  | some _ => none

/-- `json.Unmarshal` into `ClaudeRequestMessage`. -/
def decodeMessage : Jsonv → Option ClaudeRequestMessage
  | .obj fs => do
      let r ← decodeStrField (lookupField fs "role")
      let cs ← decodeContentsField (lookupField fs "content")
      some ⟨r, cs⟩
  | _ => none

/-- Unmarshal each element of a JSON array into a request message. -/
def decodeMessageList : List Jsonv → Option (List ClaudeRequestMessage)
  | [] => some []
  | j :: js => do
      let m ← decodeMessage j
      let ms ← decodeMessageList js
      some (m :: ms)

/-- Unmarshal a `[]ClaudeRequestMessage` struct field. -/
def decodeMessagesField : Option Jsonv → Option (List ClaudeRequestMessage)
  | none => some []
  | some (.arr js) => decodeMessageList js
  | some _ => none

/-- `json.Unmarshal` into `ClaudeRequest`. -/
def decodeRequest : Jsonv → Option ClaudeRequest
  | .obj fs => do
      let v ← decodeStrField (lookupField fs "anthropic_version")
      let mt ← decodeIntField (lookupField fs "max_tokens")
      let sys ← decodeStrField (lookupField fs "system")
      let ms ← decodeMessagesField (lookupField fs "messages")
      some ⟨v, mt, sys, ms⟩
  | _ => none

/-- `json.Unmarshal` into `ClaudeUsage` (a struct field of the response:
a missing key leaves the zero value). -/
def decodeUsageField : Option Jsonv → Option ClaudeUsage
  | none => some ⟨0, 0⟩
  | some (.obj fs) => do
      let i ← decodeIntField (lookupField fs "input_tokens")
      let o ← decodeIntField (lookupField fs "output_tokens")
      some ⟨i, o⟩
  | some _ => none

/-- `json.Unmarshal` into `ClaudeResponse` (main.go line 106). -/
def decodeResponse : Jsonv → Option ClaudeResponse
  | .obj fs => do
      let i ← decodeStrField (lookupField fs "id")
      let t ← decodeStrField (lookupField fs "type")
      let r ← decodeStrField (lookupField fs "role")
      let cs ← decodeContentsField (lookupField fs "content")
      let sr ← decodeStrField (lookupField fs "stop_reason")
      let ss ← decodeStrField (lookupField fs "stop_sequence")
      let u ← decodeUsageField (lookupField fs "usage")
      some ⟨i, t, r, cs, sr, ss, u⟩
  | _ => none

/-- The hardcoded region (main.go line 55). Configuration loading itself is
delegated to the SDK and not modelled. -/
def region : String := "us-east-1"

/-- The hardcoded model identifier (main.go line 65). -/
def modelID : String := "anthropic.claude-3-5-sonnet-20240620-v1:0"

/-- The diagnostic printed when the error text contains "no such host"
(main.go line 119). -/
def regionUnavailableMsg : String :=
  "エラー: 選択されたリージョンでBedrockサービスが利用できません。リージョンごとのサービス提供状況を https://aws.amazon.com/about-aws/global-infrastructure/regional-product-services/ で確認してください"

/-- Text before the model identifier in the model-resolution diagnostic
(main.go line 121). -/
def modelMsgPre : String := "エラー: モデル識別子 \""

/-- Text after the model identifier in the model-resolution diagnostic
(main.go line 121). -/
def modelMsgPost : String :=
  "\" からファンデーションモデルを解決できませんでした。指定されたモデルが存在し、指定されたリージョンでアクセス可能であることを確認してください"

/-- The model-resolution diagnostic with the model identifier substituted
for `%s` (main.go line 121). -/
def modelResolutionMsg (mid : String) : String :=
  modelMsgPre ++ mid ++ modelMsgPost

/-- Text before the error text in the generic diagnostic (main.go
line 123). -/
def genericMsgPre : String := "エラー: Anthropic Claudeの呼び出しに失敗しました: "

/-- The generic fallback diagnostic with the error's display text
substituted for `%v` (main.go line 123). -/
def genericMsg (errMsg : String) : String :=
  genericMsgPre ++ errMsg

/-- `handleInvokeError` (main.go lines 115-125), returning the single line
it prints to standard output. `errMsg` is `err.Error()`. -/
def handleInvokeError (errMsg modelID : String) : String :=
  if strContains errMsg "no such host" then
    regionUnavailableMsg
  else if strContains errMsg "Could not resolve the foundation model" then
    modelResolutionMsg modelID
  else
    genericMsg errMsg

/-- Outcome of the remote `InvokeModel` call, supplied by the environment:
either the raw response body or an error with its display text. -/
inductive InvokeResult where
  | success (respBody : Jsonv)
  | failure (errMsg : String)

/-- Observable outcome of a program run: lines written to standard output
and standard error, and either a process exit code or a runtime panic
(Go panics print to standard error and exit with code 2; we keep the
panic abstract). -/
inductive ProgResult where
  | exited (stdoutLines stderrLines : List String) (code : Nat)
  | panicked (stdoutLines stderrLines : List String)
deriving DecidableEq

/-- Request construction (main.go lines 68-83), abstracted over the values
placed in the hardcoded fields. -/
def buildRequest (prompt sysInstruction : String) (maxTokens : Int) : ClaudeRequest :=
  { anthropicVersion := "bedrock-2023-05-31"
    maxTokens := maxTokens
    system := sysInstruction
    messages := [{ role := "user"
                   content := [{ type := "text", text := prompt }] }] }

/-- The exact request main builds: Japanese system instruction
("play a kindergartner") and prompt ("what is the capital of Thailand?"),
1024 max tokens (main.go lines 68-83). -/
def programRequest : ClaudeRequest :=
  buildRequest "タイの首都は？" "幼稚園児を演じてください。" 1024

/-- The success path after the remote call (main.go lines 104-112):
unmarshal the body (`log.Fatalf` to standard error on failure), then print
`response.Content[0].Text` — an unguarded index that panics on an empty
content list. -/
def handleSuccess (respBody : Jsonv) : ProgResult :=
  match decodeResponse respBody with
  | none => .exited [] ["レスポンスの解析に失敗しました"] 1
  | some resp =>
      match resp.content with
      | [] => .panicked [] ["runtime error: index out of range [0] with length 0"]
      | c :: _ => .exited [c.text] [] 0

/-- The program from request marshalling onward (main.go lines 86-112),
with the remote call abstracted as `call` from the marshalled body to an
`InvokeResult`. Marshal failure is `log.Fatalf` (standard error, exit 1);
an invoke error is classified by `handleInvokeError` (standard output)
followed by `os.Exit(1)`. -/
def runProgram (req : ClaudeRequest) (call : Jsonv → InvokeResult) : ProgResult :=
  match marshalValue req.toGoValue with
  | .error e => .exited [] ["リクエストのJSONエンコードに失敗しました: " ++ e] 1
  | .ok body =>
      match call body with
      | .failure errMsg => .exited [handleInvokeError errMsg modelID] [] 1
      | .success respBody => handleSuccess respBody

/-- The JSON value `json.Marshal` produces for a content block. -/
def contentJson (c : ClaudeTextContent) : Jsonv :=
  .obj [("type", .str c.type), ("text", .str c.text)]

/-- The JSON value `json.Marshal` produces for a request message. -/
def messageJson (m : ClaudeRequestMessage) : Jsonv :=
  .obj [("role", .str m.role), ("content", .arr (m.content.map contentJson))]

/-- The JSON value `json.Marshal` produces for a `ClaudeRequest`. -/
def requestJson (r : ClaudeRequest) : Jsonv :=
  .obj [("anthropic_version", .str r.anthropicVersion),
        ("max_tokens", .num r.maxTokens),
        ("system", .str r.system),
        ("messages", .arr (r.messages.map messageJson))]

theorem marshal_content (c : ClaudeTextContent) :
    marshalValue c.toGoValue = .ok (contentJson c) := rfl

theorem marshalElems_content_map (cs : List ClaudeTextContent) :
    marshalElems (cs.map ClaudeTextContent.toGoValue) = .ok (cs.map contentJson) := by
  induction cs with
  | nil => rfl
  | cons c cs ih =>
      simp only [List.map_cons, marshalElems, marshal_content, ih]
      rfl

theorem marshal_message (m : ClaudeRequestMessage) :
    marshalValue m.toGoValue = .ok (messageJson m) := by
  simp only [ClaudeRequestMessage.toGoValue, marshalValue, marshalFields,
    marshalElems_content_map]
  rfl

theorem marshalElems_message_map (ms : List ClaudeRequestMessage) :
    marshalElems (ms.map ClaudeRequestMessage.toGoValue) = .ok (ms.map messageJson) := by
  induction ms with
  | nil => rfl
  | cons m ms ih =>
      simp only [List.map_cons, marshalElems, marshal_message, ih]
      rfl

/-- `json.Marshal` succeeds on every reflected `ClaudeRequest` and
produces exactly its `requestJson` image. -/
theorem marshal_request (r : ClaudeRequest) :
    marshalValue r.toGoValue = .ok (requestJson r) := by
  simp only [ClaudeRequest.toGoValue, marshalValue, marshalFields,
    marshalElems_message_map]
  rfl

theorem decodeContent_contentJson (c : ClaudeTextContent) :
    decodeContent (contentJson c) = some c := rfl

theorem decodeContentList_map (cs : List ClaudeTextContent) :
    decodeContentList (cs.map contentJson) = some cs := by
  induction cs with
  | nil => rfl
  | cons c cs ih =>
      show (do
        let c' ← decodeContent (contentJson c)
        let cs' ← decodeContentList (cs.map contentJson)
        some (c' :: cs')) = _
      rw [decodeContent_contentJson, ih]
      rfl

theorem decodeMessage_messageJson (m : ClaudeRequestMessage) :
    decodeMessage (messageJson m) = some m := by
  show (do
    let cs ← decodeContentList (m.content.map contentJson)
    some (ClaudeRequestMessage.mk m.role cs)) = _
  rw [decodeContentList_map]
  rfl

theorem decodeMessageList_map (ms : List ClaudeRequestMessage) :
    decodeMessageList (ms.map messageJson) = some ms := by
  induction ms with
  | nil => rfl
  | cons m ms ih =>
      show (do
        let m' ← decodeMessage (messageJson m)
        let ms' ← decodeMessageList (ms.map messageJson)
        some (m' :: ms')) = _
      rw [decodeMessage_messageJson, ih]
      rfl

theorem decodeRequest_requestJson (r : ClaudeRequest) :
    decodeRequest (requestJson r) = some r := by
  show (do
    let ms ← decodeMessageList (r.messages.map messageJson)
    some (ClaudeRequest.mk r.anthropicVersion r.maxTokens r.system ms)) = _
  rw [decodeMessageList_map]
  rfl

/-- Invariant of the provider request schema: non-empty message list, each
message a "user" message with a non-empty list of "text" content blocks. -/
def requestInvariant (r : ClaudeRequest) : Prop :=
  r.messages ≠ [] ∧
  ∀ m ∈ r.messages,
    m.role = "user" ∧ m.content ≠ [] ∧ ∀ c ∈ m.content, c.type = "text"

/-- C1: on a successful remote call the program prints exactly the `text`
field of the first content block of the deserialized response; any later
blocks are ignored (main.go lines 104-112). -/
theorem firstContentBlock_printed (respBody : Jsonv) (resp : ClaudeResponse)
    (c : ClaudeTextContent) (rest : List ClaudeTextContent)
    (hdec : decodeResponse respBody = some resp)
    (hcontent : resp.content = c :: rest) :
    handleSuccess respBody = .exited [c.text] [] 0 := by
  simp [handleSuccess, hdec, hcontent]

/-- C1 witness: a concrete response body whose content holds the block
"Bangkok" followed by a second block; only "Bangkok" is printed. -/
theorem firstContentBlock_printed_witness :
    decodeResponse (.obj [("id", .str "msg_123"), ("type", .str "message"),
        ("role", .str "assistant"),
        ("content", .arr [.obj [("type", .str "text"), ("text", .str "Bangkok")],
                          .obj [("type", .str "text"), ("text", .str "ignored")]]),
        ("stop_reason", .str "end_turn"), ("stop_sequence", .str ""),
        ("usage", .obj [("input_tokens", .num 10), ("output_tokens", .num 5)])]) =
      some ⟨"msg_123", "message", "assistant",
            [⟨"text", "Bangkok"⟩, ⟨"text", "ignored"⟩], "end_turn", "", ⟨10, 5⟩⟩ ∧
    handleSuccess (.obj [("id", .str "msg_123"), ("type", .str "message"),
        ("role", .str "assistant"),
        ("content", .arr [.obj [("type", .str "text"), ("text", .str "Bangkok")],
                          .obj [("type", .str "text"), ("text", .str "ignored")]]),
        ("stop_reason", .str "end_turn"), ("stop_sequence", .str ""),
        ("usage", .obj [("input_tokens", .num 10), ("output_tokens", .num 5)])]) =
      .exited ["Bangkok"] [] 0 :=
  ⟨rfl, firstContentBlock_printed _
    ⟨"msg_123", "message", "assistant",
     [⟨"text", "Bangkok"⟩, ⟨"text", "ignored"⟩], "end_turn", "", ⟨10, 5⟩⟩
    ⟨"text", "Bangkok"⟩ [⟨"text", "ignored"⟩] rfl rfl⟩

/-- C2: any error whose text contains "no such host" is classified as the
region-unavailable diagnostic, whatever else the text contains
(main.go line 118). -/
theorem noSuchHost_regionUnavailable (errMsg mid : String)
    (h : strContains errMsg "no such host" = true) :
    handleInvokeError errMsg mid = regionUnavailableMsg := by
  simp [handleInvokeError, h]

/-- C2 witness: an error text containing both "no such host" and
"Could not resolve the foundation model" still selects the
region-unavailable diagnostic. -/
theorem noSuchHost_regionUnavailable_witness :
    strContains "dial tcp: lookup bedrock-runtime.zz-fake-1.amazonaws.com: no such host, Could not resolve the foundation model" "no such host" = true ∧
    handleInvokeError "dial tcp: lookup bedrock-runtime.zz-fake-1.amazonaws.com: no such host, Could not resolve the foundation model" modelID = regionUnavailableMsg :=
  ⟨rfl, noSuchHost_regionUnavailable _ modelID rfl⟩

/-- C3: an error whose text contains "Could not resolve the foundation
model" (and not "no such host") yields a diagnostic embedding the supplied
model identifier verbatim between fixed text (main.go lines 120-121). -/
theorem modelResolution_embeds_modelID (errMsg mid : String)
    (h1 : strContains errMsg "Could not resolve the foundation model" = true)
    (h2 : strContains errMsg "no such host" = false) :
    handleInvokeError errMsg mid = modelMsgPre ++ mid ++ modelMsgPost := by
  simp [handleInvokeError, h1, h2, modelResolutionMsg]

/-- C3 witness: a concrete model-resolution error text with the hardcoded
model identifier embedded in the diagnostic. -/
theorem modelResolution_embeds_modelID_witness :
    strContains "operation error Bedrock Runtime: InvokeModel, Could not resolve the foundation model from model identifier" "Could not resolve the foundation model" = true ∧
    strContains "operation error Bedrock Runtime: InvokeModel, Could not resolve the foundation model from model identifier" "no such host" = false ∧
    handleInvokeError "operation error Bedrock Runtime: InvokeModel, Could not resolve the foundation model from model identifier" modelID = modelMsgPre ++ modelID ++ modelMsgPost :=
  ⟨rfl, rfl, modelResolution_embeds_modelID _ modelID rfl rfl⟩

/-- C4: an error whose text contains neither known substring falls back to
the generic diagnostic, which includes the error's display text
(main.go lines 122-123). -/
theorem generic_diagnostic_includes_error (errMsg mid : String)
    (h1 : strContains errMsg "no such host" = false)
    (h2 : strContains errMsg "Could not resolve the foundation model" = false) :
    handleInvokeError errMsg mid = genericMsgPre ++ errMsg := by
  simp [handleInvokeError, h1, h2, genericMsg]

/-- C4 witness: an access-denied error text matches neither substring and
is wrapped verbatim in the generic diagnostic. -/
theorem generic_diagnostic_includes_error_witness :
    strContains "AccessDeniedException: You do not have access to the model" "no such host" = false ∧
    strContains "AccessDeniedException: You do not have access to the model" "Could not resolve the foundation model" = false ∧
    handleInvokeError "AccessDeniedException: You do not have access to the model" modelID = genericMsgPre ++ "AccessDeniedException: You do not have access to the model" :=
  ⟨rfl, rfl, generic_diagnostic_includes_error _ modelID rfl rfl⟩

/-- C5: request serialization round-trips — decoding any JSON value
produced by marshalling a `ClaudeRequest` yields back exactly that request
(all four fields). -/
theorem request_roundtrip (r : ClaudeRequest) (j : Jsonv)
    (h : marshalValue r.toGoValue = .ok j) :
    decodeRequest j = some r := by
  rw [marshal_request] at h
  injection h with h
  subst h
  exact decodeRequest_requestJson r

/-- C5 witness: the round-trip on the request main builds. -/
theorem request_roundtrip_witness :
    marshalValue (ClaudeRequest.toGoValue programRequest) =
      .ok (requestJson programRequest) ∧
    decodeRequest (requestJson programRequest) = some programRequest :=
  ⟨rfl, request_roundtrip programRequest _ rfl⟩

/-- C6: end to end with prompt "What is the capital of Thailand?", system
instruction "Act as a kindergartner." and 1024 max tokens, a mocked remote
call whose response's first content text is "Bangkok!" makes the program
print exactly "Bangkok!" and exit 0. -/
theorem endToEnd_bangkok :
    runProgram (buildRequest "What is the capital of Thailand?" "Act as a kindergartner." 1024)
      (fun _ => .success (.obj [("id", .str "msg_e2e"), ("type", .str "message"),
        ("role", .str "assistant"),
        ("content", .arr [.obj [("type", .str "text"), ("text", .str "Bangkok!")]]),
        ("stop_reason", .str "end_turn"), ("stop_sequence", .str ""),
        ("usage", .obj [("input_tokens", .num 21), ("output_tokens", .num 6)])])) =
      .exited ["Bangkok!"] [] 0 := rfl

/-- C7: a well-formed response body with an empty content list decodes
successfully, and the unguarded `response.Content[0]` read then makes the
program reach the panic branch of the embedding (main.go line 111). -/
theorem emptyContent_unguarded_panic :
    decodeResponse (.obj [("id", .str "msg_empty"), ("type", .str "message"),
        ("role", .str "assistant"), ("content", .arr []),
        ("stop_reason", .str "end_turn"), ("stop_sequence", .str ""),
        ("usage", .obj [("input_tokens", .num 3), ("output_tokens", .num 0)])]) =
      some ⟨"msg_empty", "message", "assistant", [], "end_turn", "", ⟨3, 0⟩⟩ ∧
    runProgram programRequest (fun _ => .success (.obj [("id", .str "msg_empty"),
        ("type", .str "message"), ("role", .str "assistant"), ("content", .arr []),
        ("stop_reason", .str "end_turn"), ("stop_sequence", .str ""),
        ("usage", .obj [("input_tokens", .num 3), ("output_tokens", .num 0)])])) =
      .panicked [] ["runtime error: index out of range [0] with length 0"] :=
  ⟨rfl, rfl⟩

/-- C8: the request main constructs satisfies the data-model invariant —
non-empty message list, every message a "user" message with a non-empty
list of "text" blocks — and so does every request `buildRequest` can
construct. -/
theorem builtRequest_invariant :
    requestInvariant programRequest ∧
    ∀ (prompt sysInstruction : String) (maxTokens : Int),
      requestInvariant (buildRequest prompt sysInstruction maxTokens) := by
  constructor
  · refine ⟨by simp [programRequest, buildRequest], ?_⟩
    intro m hm
    simp [programRequest, buildRequest] at hm
    subst hm
    refine ⟨rfl, by simp, ?_⟩
    intro c hc
    simp at hc
    subst hc
    rfl
  · intro prompt sysInstruction maxTokens
    refine ⟨by simp [buildRequest], ?_⟩
    intro m hm
    simp [buildRequest] at hm
    subst hm
    refine ⟨rfl, by simp, ?_⟩
    intro c hc
    simp at hc
    subst hc
    rfl

/-- C10: JSON-encoding the constructed request always succeeds, so the
fatal branch after `json.Marshal` is unreachable and the program always
proceeds to the remote call (main.go lines 86-89). -/
theorem marshal_request_never_fails (r : ClaudeRequest) (call : Jsonv → InvokeResult) :
    marshalValue r.toGoValue = .ok (requestJson r) ∧
    runProgram r call = (match call (requestJson r) with
      | .failure errMsg => .exited [handleInvokeError errMsg modelID] [] 1
      | .success respBody => handleSuccess respBody) := by
  refine ⟨marshal_request r, ?_⟩
  simp [runProgram, marshal_request r]

/-- C9 counterexample: a remote call that succeeds with an undecodable body
is a failure path on which the diagnostic goes to standard error
(`log.Fatalf`) and nothing at all is written to standard output, refuting
the claim that every failure diagnostic goes to standard output. -/
theorem stdout_contract_counterexample :
    runProgram programRequest (fun _ => .success (.str "not a response object")) =
      .exited [] ["レスポンスの解析に失敗しました"] 1 := rfl

/-- C9 amended: on the success path the program writes exactly one line to
standard output (the extracted text) and exits 0, and on remote-call
failure it writes exactly one classified diagnostic line to standard
output (not standard error) and exits 1; but on response-decode failure
the diagnostic goes to standard error and standard output stays empty. -/
theorem stdout_singleLine_contract (errMsg : String) (respBody : Jsonv)
    (resp : ClaudeResponse) (c : ClaudeTextContent) (rest : List ClaudeTextContent)
    (hdec : decodeResponse respBody = some resp)
    (hcontent : resp.content = c :: rest) :
    runProgram programRequest (fun _ => .success respBody) = .exited [c.text] [] 0 ∧
    runProgram programRequest (fun _ => .failure errMsg) =
      .exited [handleInvokeError errMsg modelID] [] 1 ∧
    (∀ badBody : Jsonv, decodeResponse badBody = none →
      runProgram programRequest (fun _ => .success badBody) =
        .exited [] ["レスポンスの解析に失敗しました"] 1) := by
  refine ⟨?_, ?_, ?_⟩
  · simp [runProgram, marshal_request, handleSuccess, hdec, hcontent]
  · simp [runProgram, marshal_request]
  · intro badBody hbad
    simp [runProgram, marshal_request, handleSuccess, hbad]

/-- C9 witness: the amended contract at a concrete decodable body and a
concrete error text. -/
theorem stdout_singleLine_contract_witness :
    decodeResponse (.obj [("content", .arr [.obj [("type", .str "text"),
        ("text", .str "ok")]])]) =
      some ⟨"", "", "", [⟨"text", "ok"⟩], "", "", ⟨0, 0⟩⟩ ∧
    (runProgram programRequest (fun _ => .success (.obj [("content",
        .arr [.obj [("type", .str "text"), ("text", .str "ok")]])])) =
      .exited ["ok"] [] 0 ∧
    runProgram programRequest (fun _ => .failure "boom") =
      .exited [handleInvokeError "boom" modelID] [] 1 ∧
    (∀ badBody : Jsonv, decodeResponse badBody = none →
      runProgram programRequest (fun _ => .success badBody) =
        .exited [] ["レスポンスの解析に失敗しました"] 1)) :=
  ⟨rfl, stdout_singleLine_contract "boom" _
    ⟨"", "", "", [⟨"text", "ok"⟩], "", "", ⟨0, 0⟩⟩
    ⟨"text", "ok"⟩ [] rfl rfl⟩
